import Mathlib

/-!
Verification of `dmoj/graders/bridged.py` (`BridgedInteractiveGrader`):
a shallow embedding of the grader's pure decision logic, with the external
collaborators (sandbox launch, compiler, contrib modules, standard-grader
comparison) abstracted as parameters, exactly as the source consumes them.
-/

namespace Bridged

/-- Python `x or default` on an optional string: `None` and the empty
string are falsy, so both fall back to the default. -/
def pyOrStr (x : Option String) (default : String) : String :=
  match x with
  | none => default
  | some s => if s = "" then default else s

/-- Python `x or default` on an optional number: `None` and `0` are falsy,
so both fall back to the default. -/
def pyOrQ (x : Option ℚ) (default : ℚ) : ℚ :=
  match x with
  | none => default
  | some q => if q = 0 then default else q

/-- `ParsedResult`, the structured verdict produced by the contrib module's
`parse_return_code` from the interactor's exit code. -/
structure ParsedResult where
  passed : Bool
  points : ℚ
  feedback : String
  extended_feedback : String
deriving DecidableEq, Repr

/-- `CheckerOutput`: `check_result` returns either a bare boolean or a
structured result (`False` on submission failure, `parsed_result`, or the
superclass checker's output). -/
inductive CheckerOutput where
  | bool (b : Bool)
  | parsed (p : ParsedResult)
deriving DecidableEq, Repr

/-- A `CheckerOutput` counts as a failing verdict when it is the boolean
`False` or a `ParsedResult` whose `passed` flag is unset. -/
def CheckerOutput.isFailing : CheckerOutput → Bool
  | .bool b => !b
  | .parsed p => !p.passed

/-- Exceptions that can escape the grader's Python code: `InternalError`
(judge fault), `CompileError` (from the compiler collaborator), and
`UnboundLocalError` (`filenames` referenced before assignment in
`_generate_interactor_binary` when `files` has an unexpected shape). -/
inductive PyExc where
  | internalError (msg : String)
  | compileError (msg : String)
  | unboundLocalError
deriving DecidableEq, Repr

/-- The per-case fields of `TestCase` that `check_result` reads:
`case.points` and `case.config['checker']` (absent key modelled as
`none`). -/
structure TestCase where
  points : ℚ
  checker : Option String
deriving DecidableEq, Repr

/-- The fields of the submission's `Result` that `check_result` reads:
the result-flag bitmask (`0` means clean execution). -/
structure Result where
  result_flag : ℕ
deriving DecidableEq, Repr

/-- `BridgedInteractiveGrader.check_result`. The contrib module's
`parse_return_code` call (which may raise an `InternalError` for an
interactor crash) is abstracted as its outcome `parse_return_code`;
the superclass `StandardGrader.check_result` comparison of submission
output against expected output is abstracted as its outcome
`super_check_result`. The source first parses the return code, then
returns `False` on any nonzero result flag, then defers to the custom
checker iff the interactor passed and a non-`standard` checker is
configured, and otherwise returns the parsed result. -/
def check_result (parse_return_code : Except PyExc ParsedResult)
    (super_check_result : CheckerOutput) (case : TestCase)
    (result : Result) : Except PyExc CheckerOutput :=
  match parse_return_code with
  | .error e => .error e
  | .ok parsed_result =>
    if result.result_flag ≠ 0 then
      .ok (.bool false)
    else if parsed_result.passed &&
        !(pyOrStr case.checker "standard" == "standard") then
      .ok super_check_result
    else
      .ok (.parsed parsed_result)

/-- The shape of the `files` value under the `interactive` config node:
a plain string, a list of strings, or anything else (`ConfigNode` is
schemaless YAML, so any other shape can occur). -/
inductive FilesValue where
  | str (s : String)
  | list (l : List String)
  | other
deriving DecidableEq, Repr

/-- The keys of the `interactive` handler-data `ConfigNode` that
`bridged.py` reads (`none` models an absent key), plus `time_limit`:
`ConfigNode` accepts arbitrary keys, and an `interactive.time_limit` key
may be present in a problem's config, but the code never reads it. -/
structure HandlerData where
  hd_type : Option String
  preprocessing_time : Option ℚ
  memory_limit : Option ℚ
  time_limit : Option ℚ
  args_format_string : Option String
  files : FilesValue
  flags : List String
  unbuffered : Bool
  lang : String
  compiler_time_limit : Option ℚ
deriving DecidableEq, Repr

/-- An opaque compiled-executable handle, as returned by
`compile_with_auxiliary_files`. -/
structure BaseExecutor where
  id : ℕ
deriving DecidableEq, Repr

/-- POSIX `os.path.join` of a root and one further component: an absolute
component replaces the root, otherwise a separator is inserted unless the
root already ends in one. -/
def os_path_join (a b : String) : String :=
  if b.startsWith "/" then b
  else if a.endsWith "/" || a == "" then a ++ b
  else a ++ "/" ++ b

/-- The `filenames` computation of `_generate_interactor_binary`: a string
becomes a one-element list, a list is taken as is, and any other shape
leaves the local `filenames` unassigned, so the subsequent read raises
`UnboundLocalError`. -/
def resolve_filenames (files : FilesValue) : Except PyExc (List String) :=
  match files with
  | .str s => .ok [s]
  | .list l => .ok l
  | .other => .error .unboundLocalError

/-- `_generate_interactor_binary`: resolve the configured file list,
prefix each name with the problem's storage root, and hand the result to
`compile_with_auxiliary_files` (abstracted as the `compile` parameter)
together with the configured flags, language, compiler time limit and
buffering mode. -/
def generate_interactor_binary (hd : HandlerData) (problem_root : String)
    (compile : List String → List String → String → Option ℚ → Bool →
      Except PyExc BaseExecutor) : Except PyExc BaseExecutor :=
  match resolve_filenames hd.files with
  | .error e => .error e
  | .ok filenames =>
    compile (filenames.map (os_path_join problem_root)) hd.flags hd.lang
      hd.compiler_time_limit hd.unbuffered

/-- `self.handler_data.get('type', 'default')`: the contrib-module type,
with `'default'` selected when the key is absent. -/
def select_contrib_type (hd : HandlerData) : String :=
  hd.hd_type.getD "default"

/-- `BridgedInteractiveGrader.__init__` after the superclass call: build
the interactor binary (rethrowing a `CompileError` as the `InternalError`
`'interactor failed compiling'`; any other exception propagates), then
resolve the contrib-module type against the registry `contrib_modules`
(abstracted as the list of its keys), raising an `InternalError` when the
type is not a key. On success the grader holds the binary and the
contrib type. -/
def grader_init (contrib_modules : List String) (hd : HandlerData)
    (problem_root : String)
    (compile : List String → List String → String → Option ℚ → Bool →
      Except PyExc BaseExecutor) :
    Except PyExc (BaseExecutor × String) :=
  match generate_interactor_binary hd problem_root compile with
  | .error (.compileError _) => .error (.internalError "interactor failed compiling")
  | .error e => .error e
  | .ok interactor_binary =>
    let contrib_type := select_contrib_type hd
    if contrib_modules.contains contrib_type then
      .ok (interactor_binary, contrib_type)
    else
      .error (.internalError (contrib_type ++ " is not a valid contrib module"))

/-- The observable steps of `_interact_with_process` after the temporary
input/answer files are in place, in source order. -/
inductive SessionEvent where
  | launchInteractor
  | closeInteractorStdinPipe
  | closeInteractorStdoutPipe
  | drainInteractor
  | waitSubmission
  | readSubmissionStderr
deriving DecidableEq, Repr

/-- The per-case interaction context computed by `_interact_with_process`:
the interactor's time and memory limits, the resolved argument format
string, and the ordered log of process-lifecycle events. -/
structure Session where
  interactor_time_limit : ℚ
  interactor_memory_limit : ℚ
  args_format_string : String
  log : List SessionEvent
deriving DecidableEq, Repr

/-- `_interact_with_process` (its limit computations and process
orchestration): the interactor's time limit is
`(handler_data.preprocessing_time or 2) + problem.time_limit`, its memory
limit is `handler_data.memory_limit or env['generator_memory_limit']`,
the argument format string is the configured one or the contrib module's
default, and the session launches the interactor, closes the parent's
duplicated pipe ends, drains the interactor via `communicate()`, waits on
the submission, and finally reads the submission's stderr. -/
def interact_with_process (hd : HandlerData) (time_limit : ℚ)
    (generator_memory_limit : ℚ) (contrib_args_format_string : String) :
    Session :=
  { interactor_time_limit := pyOrQ hd.preprocessing_time 2 + time_limit
    interactor_memory_limit := pyOrQ hd.memory_limit generator_memory_limit
    args_format_string := pyOrStr hd.args_format_string contrib_args_format_string
    log := [.launchInteractor, .closeInteractorStdinPipe,
            .closeInteractorStdoutPipe, .drainInteractor,
            .waitSubmission, .readSubmissionStderr] }

/-- The interactor time limit as the spec claim words it: the configured
preprocessing time (default 2) plus the submission's time limit, unless an
explicit override of the interactor time limit is configured, in which
case the override is used. Stated only to compare with the source's
`interact_with_process`. -/
def claimed_interactor_time_limit (hd : HandlerData) (time_limit : ℚ) : ℚ :=
  match hd.time_limit with
  | some override => override
  | none => pyOrQ hd.preprocessing_time 2 + time_limit

/-- Modelled from the spec: the judge worker that invokes grader
construction is not under `src/`; per the spec's error taxonomy, an
`InternalError`, and any unhandled construction-time exception such as the
`UnboundLocalError` from a malformed file list, is surfaced as an internal
judge error and never attributed to the contestant, while a `CompileError`
is the contestant-facing submission-compile failure. -/
def surfaced_as_internal_fault : PyExc → Bool
  | .internalError _ => true
  | .compileError _ => false
  | .unboundLocalError => true

/-- A sample handler configuration: a single interactor source file, no
optional keys set. -/
def sampleHd : HandlerData :=
  { hd_type := none, preprocessing_time := none, memory_limit := none,
    time_limit := none, args_format_string := none,
    files := .str "interactor.cpp", flags := [], unbuffered := true,
    lang := "CPP17", compiler_time_limit := none }

/-- A compiler collaborator that always succeeds. -/
def compile_ok : List String → List String → String → Option ℚ → Bool →
    Except PyExc BaseExecutor :=
  fun _ _ _ _ _ => .ok ⟨0⟩

/-- A compiler collaborator that always fails with a `CompileError`. -/
def compile_fail : List String → List String → String → Option ℚ → Bool →
    Except PyExc BaseExecutor :=
  fun _ _ _ _ _ => .error (.compileError "exit status 1")

/-- C1: for every test case and every submission result whose result-flag
bitmask is nonzero, `check_result` returns a failing verdict, regardless
of the verdict the interactor's exit code parsed to. -/
theorem C1_nonzero_result_flag_fails
    (p : ParsedResult) (parse : Except PyExc ParsedResult) (hp : parse = .ok p)
    (sup : CheckerOutput) (tc : TestCase) (result : Result)
    (hf : result.result_flag ≠ 0) :
    ∃ out, check_result parse sup tc result = .ok out ∧
      out.isFailing = true := by
  subst hp
  refine ⟨.bool false, ?_, rfl⟩
  simp [check_result, hf]

theorem C1_nonzero_result_flag_fails_witness :
    ∃ out,
      check_result (.ok ⟨true, 1, "accepted", ""⟩) (.bool true)
          ⟨1, none⟩ ⟨2⟩ = .ok out ∧
        out.isFailing = true :=
  C1_nonzero_result_flag_fails ⟨true, 1, "accepted", ""⟩ _ rfl
    (.bool true) ⟨1, none⟩ ⟨2⟩ (by decide)

/-- C9: for every test case whose submission result has a nonzero result
flag, `check_result` returns the bare boolean `False` rather than a
`ParsedResult`: the interactor's parsed points and feedback are
discarded. -/
theorem C9_nonzero_result_flag_bare_false
    (p : ParsedResult) (parse : Except PyExc ParsedResult) (hp : parse = .ok p)
    (sup : CheckerOutput) (tc : TestCase) (result : Result)
    (hf : result.result_flag ≠ 0) :
    check_result parse sup tc result = .ok (.bool false) ∧
      ∀ q : ParsedResult,
        check_result parse sup tc result ≠ .ok (.parsed q) := by
  subst hp
  constructor
  · simp [check_result, hf]
  · intro q h
    simp [check_result, hf] at h

theorem C9_nonzero_result_flag_bare_false_witness :
    check_result (.ok ⟨true, 1, "accepted", "log"⟩) (.bool true)
        ⟨1, some "custom"⟩ ⟨4⟩ = .ok (.bool false) ∧
      ∀ q : ParsedResult,
        check_result (.ok ⟨true, 1, "accepted", "log"⟩) (.bool true)
            ⟨1, some "custom"⟩ ⟨4⟩ ≠ .ok (.parsed q) :=
  C9_nonzero_result_flag_bare_false ⟨true, 1, "accepted", "log"⟩ _ rfl
    (.bool true) ⟨1, some "custom"⟩ ⟨4⟩ (by decide)

/-- C2: for every test case whose submission result has no failure flags:
if the interactor's parsed verdict is passed and the case's effective
checker is not the default `standard`, `check_result` returns the
superclass checker's verdict; otherwise it returns the interactor's
`ParsedResult`. -/
theorem C2_secondary_checker_deferral
    (p : ParsedResult) (parse : Except PyExc ParsedResult) (hp : parse = .ok p)
    (sup : CheckerOutput) (tc : TestCase) (result : Result)
    (hf : result.result_flag = 0) :
    ((p.passed = true ∧ pyOrStr tc.checker "standard" ≠ "standard") →
      check_result parse sup tc result = .ok sup) ∧
    ((p.passed = false ∨ pyOrStr tc.checker "standard" = "standard") →
      check_result parse sup tc result = .ok (.parsed p)) := by
  subst hp
  constructor
  · rintro ⟨hpass, hck⟩
    simp [check_result, hf, hpass, hck]
  · rintro (h | h) <;> simp [check_result, hf, h]

theorem C2_secondary_checker_deferral_witness :
    (((⟨true, 1, "ok", ""⟩ : ParsedResult).passed = true ∧
        pyOrStr (some "custom") "standard" ≠ "standard") →
      check_result (.ok ⟨true, 1, "ok", ""⟩) (.bool true)
          ⟨1, some "custom"⟩ ⟨0⟩ = .ok (.bool true)) ∧
    (((⟨true, 1, "ok", ""⟩ : ParsedResult).passed = false ∨
        pyOrStr (some "custom") "standard" = "standard") →
      check_result (.ok ⟨true, 1, "ok", ""⟩) (.bool true)
          ⟨1, some "custom"⟩ ⟨0⟩ = .ok (.parsed ⟨true, 1, "ok", ""⟩)) :=
  C2_secondary_checker_deferral ⟨true, 1, "ok", ""⟩ _ rfl
    (.bool true) ⟨1, some "custom"⟩ ⟨0⟩ rfl

/-- C4: `check_result` evaluates the contrib module's `parse_return_code`
before inspecting the submission's result flags, so an internal fault
raised while parsing the interactor's exit code propagates out of
`check_result` for every submission result, never masked by a
submission-side failure flag. -/
theorem C4_parse_error_never_masked
    (e : PyExc) (parse : Except PyExc ParsedResult) (hp : parse = .error e)
    (sup : CheckerOutput) (tc : TestCase) (result : Result) :
    check_result parse sup tc result = .error e := by
  subst hp
  rfl

theorem C4_parse_error_never_masked_witness :
    check_result (.error (.internalError "interactor crashed")) (.bool true)
        ⟨1, none⟩ ⟨2⟩ = .error (.internalError "interactor crashed") :=
  C4_parse_error_never_masked (.internalError "interactor crashed") _ rfl
    (.bool true) ⟨1, none⟩ ⟨2⟩

/-- C3, counterexample: with `interactive.time_limit` configured as `100`,
no preprocessing time configured, and a submission time limit of `1`, the
code computes an interactor time limit of `2 + 1 = 3` and does not use the
override `100` that the claim says would be used. -/
theorem C3_time_limit_counterexample :
    (interact_with_process { sampleHd with time_limit := some 100 } 1 256
        "").interactor_time_limit = 3 ∧
      claimed_interactor_time_limit { sampleHd with time_limit := some 100 }
          1 = 100 ∧
      (interact_with_process { sampleHd with time_limit := some 100 } 1 256
          "").interactor_time_limit ≠
        claimed_interactor_time_limit
          { sampleHd with time_limit := some 100 } 1 := by
  refine ⟨?_, rfl, ?_⟩ <;>
    norm_num [interact_with_process, claimed_interactor_time_limit, pyOrQ,
      sampleHd]

/-- C3, amended: for every configured submission time limit `T`, the
interactor's computed time limit equals the configured preprocessing time
(defaulting to 2 when not configured, or configured as 0) plus `T`; no
override of the interactor time limit exists — a configured
`interactive.time_limit` value is ignored. -/
theorem C3_interactor_time_limit (hd : HandlerData) (T gml : ℚ)
    (dflt : String) :
    (interact_with_process hd T gml dflt).interactor_time_limit =
      pyOrQ hd.preprocessing_time 2 + T ∧
    ∀ override : Option ℚ,
      (interact_with_process { hd with time_limit := override } T gml
          dflt).interactor_time_limit =
        (interact_with_process hd T gml dflt).interactor_time_limit := by
  exact ⟨rfl, fun _ => rfl⟩

/-- C5: construction raises an `InternalError` when the contrib-module
type is not a key of the registry, and does not raise on this account
(given the interactor binary built) when it is a key. -/
theorem C5_unknown_contrib_type_is_internal_fault
    (contrib_modules : List String) (hd : HandlerData) (root : String)
    (compile : List String → List String → String → Option ℚ → Bool →
      Except PyExc BaseExecutor)
    (bin : BaseExecutor)
    (hg : generate_interactor_binary hd root compile = .ok bin) :
    (contrib_modules.contains (select_contrib_type hd) = false →
      grader_init contrib_modules hd root compile =
        .error (.internalError
          (select_contrib_type hd ++ " is not a valid contrib module"))) ∧
    (contrib_modules.contains (select_contrib_type hd) = true →
      grader_init contrib_modules hd root compile =
        .ok (bin, select_contrib_type hd)) := by
  constructor <;> intro h <;> simp at h <;> simp [grader_init, hg, h]

theorem C5_unknown_contrib_type_is_internal_fault_witness :
    (([ "default", "testlib" ] : List String).contains
        (select_contrib_type { sampleHd with hd_type := some "coci" }) =
          false →
      grader_init ["default", "testlib"]
          { sampleHd with hd_type := some "coci" } "/problems/guess"
          compile_ok =
        .error (.internalError ("coci" ++ " is not a valid contrib module"))) ∧
    (([ "default", "testlib" ] : List String).contains
        (select_contrib_type { sampleHd with hd_type := some "coci" }) =
          true →
      grader_init ["default", "testlib"]
          { sampleHd with hd_type := some "coci" } "/problems/guess"
          compile_ok =
        .ok (⟨0⟩, select_contrib_type { sampleHd with hd_type := some "coci" })) :=
  C5_unknown_contrib_type_is_internal_fault ["default", "testlib"]
    { sampleHd with hd_type := some "coci" } "/problems/guess" compile_ok
    ⟨0⟩ rfl

/-- C6: when building the interactor fails with a `CompileError`,
construction surfaces the `InternalError` `'interactor failed compiling'`
and never propagates a `CompileError` itself. -/
theorem C6_interactor_compile_failure_is_internal
    (contrib_modules : List String) (hd : HandlerData) (root : String)
    (compile : List String → List String → String → Option ℚ → Bool →
      Except PyExc BaseExecutor)
    (msg : String)
    (hg : generate_interactor_binary hd root compile =
      .error (.compileError msg)) :
    grader_init contrib_modules hd root compile =
      .error (.internalError "interactor failed compiling") ∧
    ∀ m, grader_init contrib_modules hd root compile ≠
      .error (.compileError m) := by
  refine ⟨?_, ?_⟩
  · simp [grader_init, hg]
  · intro m h
    simp [grader_init, hg] at h

theorem C6_interactor_compile_failure_is_internal_witness :
    grader_init ["default"] sampleHd "/problems/guess" compile_fail =
      .error (.internalError "interactor failed compiling") ∧
    ∀ m, grader_init ["default"] sampleHd "/problems/guess" compile_fail ≠
      .error (.compileError m) :=
  C6_interactor_compile_failure_is_internal ["default"] sampleHd
    "/problems/guess" compile_fail "exit status 1" rfl

/-- C7: a string-shaped or list-shaped file-list field is resolved under
the problem root and handed to the compiler with the configured flags,
language, compiler time limit and buffering mode; any other shape raises
an exception that is surfaced as an internal judge error. -/
theorem C7_files_field_shapes
    (hd : HandlerData) (root : String)
    (compile : List String → List String → String → Option ℚ → Bool →
      Except PyExc BaseExecutor) :
    (∀ s, hd.files = .str s →
      generate_interactor_binary hd root compile =
        compile [os_path_join root s] hd.flags hd.lang
          hd.compiler_time_limit hd.unbuffered) ∧
    (∀ l, hd.files = .list l →
      generate_interactor_binary hd root compile =
        compile (l.map (os_path_join root)) hd.flags hd.lang
          hd.compiler_time_limit hd.unbuffered) ∧
    (hd.files = .other →
      ∃ e, generate_interactor_binary hd root compile = .error e ∧
        surfaced_as_internal_fault e = true) := by
  refine ⟨fun s hs => ?_, fun l hl => ?_, fun ho => ?_⟩
  · simp [generate_interactor_binary, resolve_filenames, hs]
  · simp [generate_interactor_binary, resolve_filenames, hl]
  · exact ⟨.unboundLocalError,
      by simp [generate_interactor_binary, resolve_filenames, ho], rfl⟩

theorem C7_files_field_shapes_witness :
    generate_interactor_binary sampleHd "/problems/guess" compile_ok =
      compile_ok [os_path_join "/problems/guess" "interactor.cpp"]
        sampleHd.flags sampleHd.lang sampleHd.compiler_time_limit
        sampleHd.unbuffered ∧
    (∃ e, generate_interactor_binary { sampleHd with files := .other }
        "/problems/guess" compile_ok = .error e ∧
      surfaced_as_internal_fault e = true) :=
  ⟨(C7_files_field_shapes sampleHd "/problems/guess" compile_ok).1
     "interactor.cpp" rfl,
   (C7_files_field_shapes { sampleHd with files := .other }
     "/problems/guess" compile_ok).2.2 rfl⟩

/-- C8: in every interaction session the events occur in source order —
the interactor is launched, then the parent's duplicated pipe ends are
closed, then the interactor is drained until it exits, and only then is
the submission waited on; in particular interactor completion is observed
strictly before submission completion is inspected. -/
theorem C8_interaction_order (hd : HandlerData) (T gml : ℚ) (dflt : String) :
    (interact_with_process hd T gml dflt).log =
      [.launchInteractor, .closeInteractorStdinPipe,
       .closeInteractorStdoutPipe, .drainInteractor, .waitSubmission,
       .readSubmissionStderr] ∧
    (interact_with_process hd T gml dflt).log.indexOf
        SessionEvent.launchInteractor <
      (interact_with_process hd T gml dflt).log.indexOf
        SessionEvent.closeInteractorStdinPipe ∧
    (interact_with_process hd T gml dflt).log.indexOf
        SessionEvent.closeInteractorStdoutPipe <
      (interact_with_process hd T gml dflt).log.indexOf
        SessionEvent.drainInteractor ∧
    (interact_with_process hd T gml dflt).log.indexOf
        SessionEvent.drainInteractor <
      (interact_with_process hd T gml dflt).log.indexOf
        SessionEvent.waitSubmission := by
  have hlog : (interact_with_process hd T gml dflt).log =
      [.launchInteractor, .closeInteractorStdinPipe,
       .closeInteractorStdoutPipe, .drainInteractor, .waitSubmission,
       .readSubmissionStderr] := rfl
  refine ⟨hlog, ?_, ?_, ?_⟩ <;> rw [hlog] <;> decide

/-- C10: when the contrib-module type field is omitted, construction
selects `'default'`, and (given the interactor binary built) construction
succeeds on this account exactly when `'default'` is a registry key. -/
theorem C10_default_contrib_type
    (contrib_modules : List String) (hd : HandlerData) (root : String)
    (compile : List String → List String → String → Option ℚ → Bool →
      Except PyExc BaseExecutor)
    (bin : BaseExecutor)
    (ht : hd.hd_type = none)
    (hg : generate_interactor_binary hd root compile = .ok bin) :
    select_contrib_type hd = "default" ∧
    (contrib_modules.contains "default" = true →
      grader_init contrib_modules hd root compile = .ok (bin, "default")) ∧
    (contrib_modules.contains "default" = false →
      grader_init contrib_modules hd root compile =
        .error (.internalError "default is not a valid contrib module")) := by
  have hsel : select_contrib_type hd = "default" := by
    simp [select_contrib_type, ht]
  refine ⟨hsel, fun h => ?_, fun h => ?_⟩ <;> simp at h <;>
    simp [grader_init, hg, hsel, h]

theorem C10_default_contrib_type_witness :
    select_contrib_type sampleHd = "default" ∧
    (([ "default", "testlib" ] : List String).contains "default" = true →
      grader_init ["default", "testlib"] sampleHd "/problems/guess"
        compile_ok = .ok (⟨0⟩, "default")) ∧
    (([ "default", "testlib" ] : List String).contains "default" = false →
      grader_init ["default", "testlib"] sampleHd "/problems/guess"
        compile_ok =
        .error (.internalError "default is not a valid contrib module")) :=
  C10_default_contrib_type ["default", "testlib"] sampleHd
    "/problems/guess" compile_ok ⟨0⟩ rfl rfl

end Bridged
